import Mathlib

/-!
Shallow embedding of the CelesteBot account-linking core
(`data_manager.py`, the message/webhook handlers of `qq_bot.py`, and the
constants of `config_example.py`), together with theorems settling the
spec claims about it.

Modelling conventions:
* Python `dict`s keyed by strings are modelled as functions `String → Option α`
  (`dget`/`dset`/`dpop` mirror `d.get(k)`, `d[k] = v`, `d.pop(k, None)`).
* `time.time()` values are modelled as whole-second timestamps `ℤ` (every
  claim is about second-granularity thresholds); Python `int()` truncation
  is then the identity, recorded as `pyInt`.
* `random.randint(100000, 999999)` is modelled by passing the drawn number
  as an explicit parameter `r` together with the bound that `randint`
  guarantees.
* Each `DataManager` method body runs entirely under `self.lock`; it is
  therefore embedded as one pure function from the loaded document (and its
  inputs) to the stored document and the returned value.  One lock
  acquisition = one such function application.
-/

namespace CelesteBot

/-- Python dict lookup `m.get(k)` for a string-keyed dict. -/
def dget {α : Type} (m : String → Option α) (k : String) : Option α := m k

/-- Python dict assignment `m[k] = v`. -/
def dset {α : Type} (m : String → Option α) (k : String) (v : α) :
    String → Option α :=
  fun a => if a = k then some v else m a

/-- Python dict removal `m.pop(k, None)`. -/
def dpop {α : Type} (m : String → Option α) (k : String) : String → Option α :=
  fun a => if a = k then none else m a

/-- A pending binding entry, exactly the dict written by
`DataManager.create_pending_binding`:
`{"username": ..., "code": ..., "expire_time": ..., "request_time": ...}`. -/
structure PendingEntry where
  username : String
  code : String
  expire_time : ℤ
  request_time : ℤ
deriving DecidableEq

/-- The persisted JSON document of `DataManager`: top-level keys
`bindings`, `user_qq_map`, `notifications`, `groups`, `pending_bindings`. -/
structure Doc where
  bindings : String → Option String
  user_qq_map : String → Option String
  notifications : String → Option String
  groups : List String
  pending_bindings : String → Option PendingEntry

/-- The empty document: what an absent key behaves like under `.get(k, {})`,
and the state every fresh store starts from. -/
def emptyDoc : Doc where
  bindings := fun _ => none
  user_qq_map := fun _ => none
  notifications := fun _ => none
  groups := []
  pending_bindings := fun _ => none

/-- config_example.py: `VERIFICATION_TIMEOUT = 300` (seconds). -/
def VERIFICATION_TIMEOUT : ℤ := 300

/-- config_example.py: `BIND_COOLDOWN = 60` (seconds). -/
def BIND_COOLDOWN : ℤ := 60

/-- Python `int(x)`: truncation toward zero; on the whole-second timestamps
of this model it is the identity. -/
def pyInt (x : ℤ) : ℤ := x

/-- On-disk states `DataManager._load` can encounter: the file is missing,
it exists but is not valid JSON, or it holds a document. -/
inductive FileState
  | missing
  | malformed
  | valid (d : Doc)

/-- DataManager._load: `json.load` wrapped in
`except (json.JSONDecodeError, FileNotFoundError): return {}` — a missing or
malformed file is read as the empty dict `{}`, which every accessor
(`data.get(key, default)`) makes behave exactly like `emptyDoc`. -/
def load : FileState → Doc
  | .valid d => d
  | .missing => emptyDoc
  | .malformed => emptyDoc

/-- DataManager.get_binding. -/
def get_binding (d : Doc) (qq_number : String) : Option String :=
  dget d.bindings qq_number

/-- DataManager.get_qq_by_username. -/
def get_qq_by_username (d : Doc) (username : String) : Option String :=
  dget d.user_qq_map username

/-- The conditional pop in `DataManager.set_binding`:
`old = m.get(k); if old: other.pop(old, None)`.  Python truthiness on an
`Optional[str]` skips the pop both when the value is `None` and when it is
the empty string. -/
def popTruthy (m : String → Option String) : Option String →
    (String → Option String)
  | some s => if s = "" then m else dpop m s
  | none => m

/-- DataManager.set_binding: removes the stale halves of any old pairs
(guarded by Python truthiness), then inserts the new pair in both
directions.  Note the reverse lookup `user_qq_map.get(username)` happens
after the first pop, on the already-updated map. -/
def set_binding (d : Doc) (qq_number username : String) : Doc :=
  let m1 := popTruthy d.user_qq_map (dget d.bindings qq_number)
  let b1 := popTruthy d.bindings (dget m1 username)
  { d with
    bindings := dset b1 qq_number username
    user_qq_map := dset m1 username qq_number }

/-- DataManager.check_bind_cooldown: returns `(can_request, remaining)`. -/
def check_bind_cooldown (d : Doc) (qq_number : String) (now : ℤ) :
    Bool × ℤ :=
  match dget d.pending_bindings qq_number with
  | some pending =>
      let elapsed := now - pending.request_time
      if elapsed < BIND_COOLDOWN then (false, pyInt (BIND_COOLDOWN - elapsed))
      else (true, 0)
  | none => (true, 0)

/-- DataManager.create_pending_binding: `r` is the value drawn by
`random.randint(100000, 999999)`; returns the code string and stores the
pending entry, overwriting any prior one for this QQ number. -/
def create_pending_binding (d : Doc) (qq_number username : String)
    (now : ℤ) (r : ℕ) : String × Doc :=
  let code := toString r
  let expire_time := now + VERIFICATION_TIMEOUT
  let request_time := now
  (code,
   { d with
     pending_bindings :=
       dset d.pending_bindings qq_number
         ⟨username, code, expire_time, request_time⟩ })

/-- Message returned by `verify_binding` when no pending request exists. -/
def noPendingMsg : String := "没有待验证的绑定请求，请先使用 /bind 命令"

/-- Message returned by `verify_binding` when the code has expired. -/
def expiredMsg : String := "验证码已过期，请重新使用 /bind 命令"

/-- Message returned by `verify_binding` on a wrong code. -/
def mismatchMsg : String := "验证码错误，请重新输入"

/-- Message returned by `verify_binding` on success. -/
def successMsg (username : String) : String :=
  "绑定成功！已将 QQ 绑定到用户: " ++ username

/-- DataManager.verify_binding, as the net document transformation of a
single-threaded run: check pending, then expiry, then the code; on success
pop the entry and apply `set_binding` (which the source performs under a
second, separate lock acquisition — see the C5 theorems). -/
def verify_binding (d : Doc) (qq_number code : String) (now : ℤ) :
    Doc × (Bool × String) :=
  match dget d.pending_bindings qq_number with
  | none => (d, (false, noPendingMsg))
  | some pending =>
      if pending.expire_time < now then
        ({ d with pending_bindings := dpop d.pending_bindings qq_number },
         (false, expiredMsg))
      else if pending.code ≠ code then
        (d, (false, mismatchMsg))
      else
        let d1 :=
          { d with pending_bindings := dpop d.pending_bindings qq_number }
        (set_binding d1 qq_number pending.username,
         (true, successMsg pending.username))

/-- DataManager.set_notification_group. -/
def set_notification_group (d : Doc) (qq_number group_id : String) : Doc :=
  { d with notifications := dset d.notifications qq_number group_id }

/-- DataManager.get_notification_group. -/
def get_notification_group (d : Doc) (qq_number : String) : Option String :=
  dget d.notifications qq_number

/-- DataManager.add_group. -/
def add_group (d : Doc) (group_id : String) : Doc :=
  if group_id ∈ d.groups then d
  else { d with groups := d.groups ++ [group_id] }

/-- DataManager.remove_group. -/
def remove_group (d : Doc) (group_id : String) : Doc :=
  { d with groups := d.groups.erase group_id }

/-- DataManager.get_groups. -/
def get_groups (d : Doc) : List String := d.groups

/-- WebhookHandler._find_notification_group: `member g q` is the live
`is_user_in_group(g, q)` query against the chat client.  Source order:
the `"private"` sentinel short-circuits to `None`; a truthy preference the
user is a member of wins; otherwise the first roster group containing the
user; otherwise `None` (private chat fallback). -/
def find_notification_group (d : Doc) (qq_number : String)
    (member : String → String → Bool) : Option String :=
  match get_notification_group d qq_number with
  | some preferred =>
      if preferred = "private" then none
      else if preferred ≠ "" && member preferred qq_number then some preferred
      else d.groups.find? (fun g => member g qq_number)
  | none => d.groups.find? (fun g => member g qq_number)

/-- MessageHandler._handle_bind, restricted to its store effects: one lock
acquisition for `check_bind_cooldown`, and — only if allowed — a second,
separate lock acquisition for `create_pending_binding`.  Returns the final
document and whether the flow proceeded past the cooldown check. -/
def handle_bind (d : Doc) (qq_number username : String) (now : ℤ) (r : ℕ) :
    Doc × Bool :=
  if (check_bind_cooldown d qq_number now).1 then
    ((create_pending_binding d qq_number username now r).2, true)
  else (d, false)

/-- Two threads running `MessageHandler._handle_bind` for the same QQ number,
scheduled so that both cooldown checks run before either pending-entry
creation.  This schedule is possible exactly because the flow takes the
store lock twice; each of the four steps is one lock acquisition.  Returns
the final document and the two cooldown-check results. -/
def handle_bind_racing (d : Doc) (qq_number u1 u2 : String) (now : ℤ)
    (r1 r2 : ℕ) : Doc × (Bool × Bool) :=
  let c1 := (check_bind_cooldown d qq_number now).1
  let c2 := (check_bind_cooldown d qq_number now).1
  let d1 := if c1 then (create_pending_binding d qq_number u1 now r1).2 else d
  let d2 := if c2 then (create_pending_binding d1 qq_number u2 now r2).2 else d1
  (d2, (c1, c2))

/-- Two runs of `MessageHandler._handle_bind` for the same QQ number executed
serially (one completes before the other starts), in the given order. -/
def handle_bind_twice (d : Doc) (qq_number u1 u2 : String) (now : ℤ)
    (r1 r2 : ℕ) : Doc × (Bool × Bool) :=
  let s1 := handle_bind d qq_number u1 now r1
  let s2 := handle_bind s1.1 qq_number u2 now r2
  (s2.1, (s1.2, s2.2))

/-- File-system operations relevant to persistence. -/
inductive FsOp
  | openTrunc (path : String)
  | writeAll (path : String) (content : String)
  | rename (src dst : String)
deriving DecidableEq

/-- DataManager._save: `open(self.filepath, 'w', ...)` truncates the data
file in place, then `json.dump(data, f, ...)` writes the serialized document
to it.  There is no temporary path and no rename in the source. -/
def save_ops (filepath serialized : String) : List FsOp :=
  [FsOp.openTrunc filepath, FsOp.writeAll filepath serialized]

/-- A file system: contents by path, `none` when the path does not exist. -/
def FileSys : Type := String → Option String

/-- Effect of one file-system operation. -/
def applyFsOp (fs : FileSys) : FsOp → FileSys
  | .openTrunc p => fun x => if x = p then some "" else fs x
  | .writeAll p c => fun x => if x = p then some c else fs x
  | .rename src dst =>
      fun x => if x = dst then fs src else if x = src then none else fs x

/-- Run a list of file-system operations in order.  A crash mid-save is
running only a prefix of the operation list. -/
def runFsOps (fs : FileSys) (ops : List FsOp) : FileSys :=
  ops.foldl applyFsOp fs

/-- The write discipline claim C6 describes: the serialized document goes to
a temporary path distinct from the data path, which is then renamed into
place; the data path itself is never opened for truncation or written. -/
def tempRenameDiscipline (filepath : String) (ops : List FsOp) : Prop :=
  ∃ tmp, tmp ≠ filepath ∧ FsOp.rename tmp filepath ∈ ops ∧
    FsOp.openTrunc filepath ∉ ops ∧ ∀ c, FsOp.writeAll filepath c ∉ ops

/-- Channel resolution exactly as claim C4 words it: the `"private"`
sentinel short-circuits; else a set preferred group that the user is a
member of wins; else the first roster group containing the user; else the
private channel (`none`). -/
def resolveChannelSpec (d : Doc) (qq_number : String)
    (member : String → String → Bool) : Option String :=
  match get_notification_group d qq_number with
  | some preferred =>
      if preferred = "private" then none
      else if member preferred qq_number then some preferred
      else d.groups.find? (fun g => member g qq_number)
  | none => d.groups.find? (fun g => member g qq_number)

/-- Claim C4 as amended: a stored preferred group only wins when it is
additionally non-empty (Python truthiness of the stored preference). -/
def resolveChannelSpecNE (d : Doc) (qq_number : String)
    (member : String → String → Bool) : Option String :=
  match get_notification_group d qq_number with
  | some preferred =>
      if preferred = "private" then none
      else if preferred ≠ "" && member preferred qq_number then some preferred
      else d.groups.find? (fun g => member g qq_number)
  | none => d.groups.find? (fun g => member g qq_number)

/-- The request-allowed condition exactly as claim C3 words it: no pending
entry, or the existing entry's `requestedAt` is MORE than `BIND_COOLDOWN`
seconds before `now`. -/
def cooldownAllowedSpec (d : Doc) (qq_number : String) (now : ℤ) : Prop :=
  dget d.pending_bindings qq_number = none ∨
  ∃ p, dget d.pending_bindings qq_number = some p ∧
    p.request_time + BIND_COOLDOWN < now

/-- Replay a sequence of `set_binding` calls starting from the empty
document. -/
def applyBinds (l : List (String × String)) : Doc :=
  l.foldl (fun d p => set_binding d p.1 p.2) emptyDoc

/-- The bijection invariant of the link registry, together with the fact
that all stored values are non-empty: forward and reverse map are inverse
over the currently-bound pairs. -/
def Inv (d : Doc) : Prop :=
  (∀ q u, d.bindings q = some u → d.user_qq_map u = some q ∧ u ≠ "") ∧
  (∀ u q, d.user_qq_map u = some q → d.bindings q = some u ∧ q ≠ "")

/-- A document holding one pending request for `"Q"` → account `"alice"`,
code `"123456"`, requested at time 0 (so `expire_time = 300`).  Used as the
concrete input of several counterexamples. -/
def requestedDoc : Doc :=
  (create_pending_binding emptyDoc "Q" "alice" 0 123456).2

/-- A document whose user `"Q"` prefers group `"G1"`, with roster
`["G1", "G2"]`. -/
def prefG1Doc : Doc :=
  add_group (add_group (set_notification_group emptyDoc "Q" "G1") "G1") "G2"

/-- A document whose user `"Q"` prefers private-chat delivery. -/
def privPrefDoc : Doc := set_notification_group emptyDoc "Q" "private"

/-- A document with no preference for `"Q"` and roster `["G1"]`. -/
def rosterOnlyDoc : Doc := add_group emptyDoc "G1"

/-- A document whose stored preference for `"Q"` is the empty string. -/
def emptyPrefDoc : Doc := set_notification_group emptyDoc "Q" ""

end CelesteBot

namespace CelesteBot

theorem dget_def {α : Type} (m : String → Option α) (k : String) :
    dget m k = m k := rfl

theorem dset_self {α : Type} (m : String → Option α) (k : String) (v : α) :
    dset m k v k = some v := by simp [dset]

theorem dset_ne {α : Type} (m : String → Option α) (k : String) (v : α)
    {a : String} (h : a ≠ k) : dset m k v a = m a := by simp [dset, h]

theorem dpop_self {α : Type} (m : String → Option α) (k : String) :
    dpop m k k = none := by simp [dpop]

theorem dpop_ne {α : Type} (m : String → Option α) (k : String)
    {a : String} (h : a ≠ k) : dpop m k a = m a := by simp [dpop, h]

theorem popTruthy_eq_or (m : String → Option String) (v : Option String)
    (x : String) :
    popTruthy m v x = m x ∨ (v = some x ∧ x ≠ "" ∧ popTruthy m v x = none) := by
  cases v with
  | none => exact Or.inl rfl
  | some s =>
      by_cases hs : s = ""
      · exact Or.inl (by simp [popTruthy, hs])
      · by_cases hx : x = s
        · subst hx
          exact Or.inr ⟨rfl, hs, by simp [popTruthy, hs, dpop]⟩
        · exact Or.inl (by simp [popTruthy, hs, dpop, hx])

theorem popTruthy_subset {m : String → Option String} {v : Option String}
    {x : String} {y : String} (h : popTruthy m v x = some y) : m x = some y := by
  rcases popTruthy_eq_or m v x with heq | ⟨_, _, hnone⟩
  · rwa [heq] at h
  · rw [hnone] at h; cases h

theorem popTruthy_self (m : String → Option String) {s : String}
    (hs : s ≠ "") : popTruthy m (some s) s = none := by
  simp [popTruthy, hs, dpop]

theorem set_binding_bindings (d : Doc) (q u : String) :
    (set_binding d q u).bindings =
      dset (popTruthy d.bindings
        (dget (popTruthy d.user_qq_map (dget d.bindings q)) u)) q u := rfl

theorem set_binding_map (d : Doc) (q u : String) :
    (set_binding d q u).user_qq_map =
      dset (popTruthy d.user_qq_map (dget d.bindings q)) u q := rfl

theorem Inv_set_binding {d : Doc} (hd : Inv d) {q u : String}
    (hq : q ≠ "") (hu : u ≠ "") : Inv (set_binding d q u) := by
  obtain ⟨h1, h2⟩ := hd
  rw [Inv, set_binding_bindings, set_binding_map]
  simp only [dget_def]
  constructor
  · intro q' u' hq'
    by_cases hq'q : q' = q
    · subst hq'q
      rw [dset_self] at hq'
      cases hq'
      exact ⟨dset_self _ _ _, hu⟩
    · rw [dset_ne _ _ _ hq'q] at hq'
      have hBq' : d.bindings q' = some u' := popTruthy_subset hq'
      obtain ⟨hMu', hu'ne⟩ := h1 q' u' hBq'
      by_cases hu'u : u' = u
      · subst hu'u
        exfalso
        rcases popTruthy_eq_or d.user_qq_map (d.bindings q) u' with
          hcase | ⟨hBqu, _, hnone⟩
        · -- the reverse lookup found q', so the second pop removed key q'
          have hq'ne : q' ≠ "" := (h2 u' q' hMu').2
          rw [hcase, hMu', popTruthy_self _ hq'ne] at hq'
          cases hq'
        · -- bindings q = some u', so M u' = some q, contradicting M u' = some q'
          have hMq := (h1 q u' hBqu).1
          rw [hMu'] at hMq
          exact hq'q (Option.some.inj hMq)
      · rw [dset_ne _ _ _ hu'u]
        refine ⟨?_, hu'ne⟩
        rcases popTruthy_eq_or d.user_qq_map (d.bindings q) u' with
          hcase | ⟨hBqu, _, hnone⟩
        · rw [hcase]; exact hMu'
        · exfalso
          have hMq := (h1 q u' hBqu).1
          rw [hMu'] at hMq
          exact hq'q (Option.some.inj hMq)
  · intro u' q' hu'
    by_cases hu'u : u' = u
    · subst hu'u
      rw [dset_self] at hu'
      cases hu'
      exact ⟨dset_self _ _ _, hq⟩
    · rw [dset_ne _ _ _ hu'u] at hu'
      have hMu' : d.user_qq_map u' = some q' := popTruthy_subset hu'
      obtain ⟨hBq', hq'ne⟩ := h2 u' q' hMu'
      by_cases hq'q : q' = q
      · subst hq'q
        exfalso
        -- bindings q' = some u' with u' nonempty: the first pop removed key u'
        have hu'ne : u' ≠ "" := (h1 q' u' hBq').2
        rw [hBq', popTruthy_self _ hu'ne] at hu'
        cases hu'
      · rw [dset_ne _ _ _ hq'q]
        refine ⟨?_, hq'ne⟩
        rcases popTruthy_eq_or d.bindings
            (popTruthy d.user_qq_map (d.bindings q) u) q' with
          hcase | ⟨hm1u, _, hnone⟩
        · rw [hcase]; exact hBq'
        · exfalso
          -- the reverse lookup hit q', i.e. m1 u = some q', so M u = some q'
          have hMu : d.user_qq_map u = some q' := popTruthy_subset hm1u
          have := (h2 u q' hMu).1
          rw [hBq'] at this
          exact hu'u (Option.some.inj this)

end CelesteBot

namespace CelesteBot

theorem Inv_emptyDoc : Inv emptyDoc := by
  constructor <;> intro a b h <;> exact absurd h (by simp [emptyDoc])

theorem Inv_applyBinds_from (l : List (String × String)) :
    ∀ d : Doc, Inv d → (∀ p ∈ l, p.1 ≠ "" ∧ p.2 ≠ "") →
      Inv (l.foldl (fun d p => set_binding d p.1 p.2) d) := by
  induction l with
  | nil => intro d hd _; exact hd
  | cons hd tl ih =>
      intro d hdInv hne
      rw [List.foldl_cons]
      exact ih _ (Inv_set_binding hdInv (hne hd (by simp)).1 (hne hd (by simp)).2)
        (fun p hp => hne p (by simp [hp]))

theorem Inv_applyBinds (l : List (String × String))
    (hne : ∀ p ∈ l, p.1 ≠ "" ∧ p.2 ≠ "") : Inv (applyBinds l) :=
  Inv_applyBinds_from l emptyDoc Inv_emptyDoc hne

theorem applyBinds_append_single (l : List (String × String)) (x b : String) :
    applyBinds (l ++ [(x, b)]) = set_binding (applyBinds l) x b := by
  rw [applyBinds, List.foldl_append]
  rfl

/-- C1 (amended): for every sequence of `set_binding` calls starting from the
empty document in which every QQ number and account name is a non-empty
string, the forward map and the reverse map stay inverse bijections over the
currently-bound pairs, and rebinding a QQ number removes its old pair
entirely: after appending a rebind of `x` from `a` to `b ≠ a`, the reverse
lookup of `a` is absent. -/
theorem bind_sequences_bijection (l : List (String × String))
    (hne : ∀ p ∈ l, p.1 ≠ "" ∧ p.2 ≠ "") :
    (∀ a q, get_qq_by_username (applyBinds l) a = some q →
      get_binding (applyBinds l) q = some a) ∧
    (∀ q a, get_binding (applyBinds l) q = some a →
      get_qq_by_username (applyBinds l) a = some q) ∧
    (∀ x a b, get_binding (applyBinds l) x = some a → a ≠ b →
      get_qq_by_username (applyBinds (l ++ [(x, b)])) a = none) := by
  obtain ⟨h1, h2⟩ := Inv_applyBinds l hne
  refine ⟨fun a q h => (h2 a q h).1, fun q a h => (h1 q a h).1, ?_⟩
  intro x a b hbind hab
  have hane : a ≠ "" := (h1 x a hbind).2
  rw [applyBinds_append_single, get_qq_by_username, dget_def, set_binding_map,
    dset_ne _ _ _ hab]
  rw [get_binding, dget_def] at hbind
  rw [dget_def, hbind, popTruthy_self _ hane]

/-- C1 counterexample: the claim quantifies over every sequence of bind
calls, but with the empty-string account name (reachable via the command
`/bind` with empty argument) the truthiness guard in `set_binding` skips
the stale-pair cleanup.  After `bind("X", "")` then `bind("X", "B")`, the
reverse lookup of the previously bound account `""` still returns `"X"`
(the claim says absent), and the roundtrip
`lookupAccount(lookupIdentity(""))` gives `"B" ≠ ""`. -/
theorem bind_sequences_bijection_cex :
    get_qq_by_username (applyBinds [("X", ""), ("X", "B")]) "" = some "X" ∧
    get_binding (applyBinds [("X", ""), ("X", "B")]) "X" = some "B" ∧
    get_qq_by_username (applyBinds [("X", ""), ("X", "B")]) "" ≠ none := by
  refine ⟨by decide, by decide, by decide⟩

/-- Witness for `bind_sequences_bijection` at the concrete sequence
`[("Q1", "alice")]` followed by a rebind of `"Q1"` to `"bob"`. -/
theorem bind_sequences_bijection_witness :
    get_binding (applyBinds [("Q1", "alice")]) "Q1" = some "alice" ∧
    get_qq_by_username (applyBinds ([("Q1", "alice")] ++ [("Q1", "bob")]))
      "alice" = none :=
  ⟨(bind_sequences_bijection [("Q1", "alice")] (by decide)).1 "alice" "Q1"
      (by decide),
   (bind_sequences_bijection [("Q1", "alice")] (by decide)).2.2 "Q1" "alice"
      "bob" (by decide) (by decide)⟩

end CelesteBot

namespace CelesteBot

/-- C2: `DataManager.verify_binding` behaves exactly as the claimed case
analysis: no pending entry → `NoPendingRequest` failure, document unchanged;
`now` past `expire_time` → entry deleted, `Expired` failure; wrong code →
failure with the entry retained (document unchanged); otherwise the entry is
deleted, the bind is performed, and success is reported with the stored
account name. -/
theorem verify_case_analysis (d : Doc) (q c : String) (now : ℤ) :
    (dget d.pending_bindings q = none →
      verify_binding d q c now = (d, (false, noPendingMsg))) ∧
    (∀ p, dget d.pending_bindings q = some p → p.expire_time < now →
      verify_binding d q c now =
        ({ d with pending_bindings := dpop d.pending_bindings q },
         (false, expiredMsg))) ∧
    (∀ p, dget d.pending_bindings q = some p → ¬ p.expire_time < now →
      p.code ≠ c →
      verify_binding d q c now = (d, (false, mismatchMsg))) ∧
    (∀ p, dget d.pending_bindings q = some p → ¬ p.expire_time < now →
      p.code = c →
      verify_binding d q c now =
        (set_binding { d with pending_bindings := dpop d.pending_bindings q }
          q p.username,
         (true, successMsg p.username))) := by
  refine ⟨?_, ?_, ?_, ?_⟩
  · intro h; simp [verify_binding, h]
  · intro p hp hexp; simp [verify_binding, hp, hexp]
  · intro p hp hexp hcode; simp [verify_binding, hp, hexp, hcode]
  · intro p hp hexp hcode; simp [verify_binding, hp, hexp, hcode]

/-- Witness for `verify_case_analysis`: all four branches at concrete
inputs (`requestedDoc` holds a pending request for `"Q"` with code
`"123456"` expiring at 300). -/
theorem verify_case_analysis_witness :
    verify_binding emptyDoc "Q" "1" 0 = (emptyDoc, (false, noPendingMsg)) ∧
    verify_binding requestedDoc "Q" "123456" 301 =
      ({ requestedDoc with
          pending_bindings := dpop requestedDoc.pending_bindings "Q" },
       (false, expiredMsg)) ∧
    verify_binding requestedDoc "Q" "654321" 100 =
      (requestedDoc, (false, mismatchMsg)) ∧
    verify_binding requestedDoc "Q" "123456" 100 =
      (set_binding
        { requestedDoc with
            pending_bindings := dpop requestedDoc.pending_bindings "Q" }
        "Q" "alice",
       (true, successMsg "alice")) :=
  ⟨(verify_case_analysis emptyDoc "Q" "1" 0).1 rfl,
   (verify_case_analysis requestedDoc "Q" "123456" 301).2.1
     ⟨"alice", "123456", 300, 0⟩ (by decide) (by decide),
   (verify_case_analysis requestedDoc "Q" "654321" 100).2.2.1
     ⟨"alice", "123456", 300, 0⟩ (by decide) (by decide) (by decide),
   (verify_case_analysis requestedDoc "Q" "123456" 100).2.2.2
     ⟨"alice", "123456", 300, 0⟩ (by decide) (by decide) (by decide)⟩

/-- Helper: the pending entry stored by `create_pending_binding`. -/
theorem create_pending_lookup (d : Doc) (q u : String) (now : ℤ) (r : ℕ) :
    dget (create_pending_binding d q u now r).2.pending_bindings q =
      some ⟨u, toString r, now + VERIFICATION_TIMEOUT, now⟩ := by
  simp [create_pending_binding, dget, dset]

/-- C3 (amended): a link request is allowed if and only if no pending entry
exists or the entry's `request_time` is AT LEAST `BIND_COOLDOWN` seconds
before `now` (the source compares `elapsed < BIND_COOLDOWN`, so at exactly
`BIND_COOLDOWN` seconds the request is already allowed); when blocked it
returns the truncated remaining seconds.  Consequently a second request for
the same identity strictly within `BIND_COOLDOWN` seconds of a successful
one is refused, and one at least `BIND_COOLDOWN` seconds later is allowed. -/
theorem cooldown_check_iff (d : Doc) (q : String) (now : ℤ) :
    ((check_bind_cooldown d q now).1 = true ↔
      (dget d.pending_bindings q = none ∨
        ∃ p, dget d.pending_bindings q = some p ∧
          p.request_time + BIND_COOLDOWN ≤ now)) ∧
    (∀ p, dget d.pending_bindings q = some p →
      now - p.request_time < BIND_COOLDOWN →
      check_bind_cooldown d q now =
        (false, pyInt (BIND_COOLDOWN - (now - p.request_time)))) ∧
    (∀ u r now2, now2 - now < BIND_COOLDOWN →
      (check_bind_cooldown (create_pending_binding d q u now r).2 q now2).1
        = false) ∧
    (∀ u r now2, now + BIND_COOLDOWN ≤ now2 →
      (check_bind_cooldown (create_pending_binding d q u now r).2 q now2).1
        = true) := by
  refine ⟨?_, ?_, ?_, ?_⟩
  · cases hp : dget d.pending_bindings q with
    | none => simp [check_bind_cooldown, hp]
    | some p =>
        by_cases hlt : now - p.request_time < BIND_COOLDOWN <;>
          simp [check_bind_cooldown, hp, hlt] <;> omega
  · intro p hp hlt; simp [check_bind_cooldown, hp, hlt]
  · intro u r now2 hlt
    simp [check_bind_cooldown, create_pending_lookup, hlt]
  · intro u r now2 hle
    have : ¬ now2 - now < BIND_COOLDOWN := by omega
    simp [check_bind_cooldown, create_pending_lookup, this]

/-- C3 counterexample to the claimed strict "more than" condition: with a
pending entry requested at time 0, a request at `now = 60` is allowed by
the code (`elapsed < BIND_COOLDOWN` is false at exactly 60), yet the
entry's `requestedAt` is not MORE than 60 seconds before `now`, so the
claimed iff fails at this input. -/
theorem cooldown_boundary_cex :
    (check_bind_cooldown requestedDoc "Q" 60).1 = true ∧
    ¬ cooldownAllowedSpec requestedDoc "Q" 60 := by
  constructor
  · decide
  · rintro (h | ⟨p, hp, hlt⟩)
    · exact absurd h (by decide)
    · have heq : dget requestedDoc.pending_bindings "Q" =
          some ⟨"alice", "123456", 300, 0⟩ := by decide
      rw [heq] at hp
      cases hp
      exact absurd hlt (by decide)

/-- Witness for `cooldown_check_iff` at concrete inputs. -/
theorem cooldown_check_iff_witness :
    check_bind_cooldown requestedDoc "Q" 30 = (false, 30) ∧
    (check_bind_cooldown
      (create_pending_binding emptyDoc "Q" "alice" 0 123456).2 "Q" 30).1
      = false ∧
    (check_bind_cooldown
      (create_pending_binding emptyDoc "Q" "alice" 0 123456).2 "Q" 60).1
      = true :=
  ⟨(cooldown_check_iff requestedDoc "Q" 30).2.1 ⟨"alice", "123456", 300, 0⟩
     (by decide) (by decide),
   (cooldown_check_iff emptyDoc "Q" 0).2.2.1 "alice" 123456 30 (by decide),
   (cooldown_check_iff emptyDoc "Q" 0).2.2.2 "alice" 123456 60 (by decide)⟩

end CelesteBot

namespace CelesteBot

/-- C4 (amended): channel resolution follows the claimed short-circuit order
with one extra guard from the source (`if preferred and ...`): a stored
preferred group only wins when it is non-empty.  The claim's concrete
examples all hold: preference G1 with membership only in G2 over roster
[G1, G2] resolves to G2; preference "private" always resolves to the
private channel; no preference and no membership resolves to the private
channel. -/
theorem routing_order :
    (∀ d q member,
      find_notification_group d q member = resolveChannelSpecNE d q member) ∧
    find_notification_group prefG1Doc "Q" (fun g _ => g == "G2")
      = some "G2" ∧
    (∀ member, find_notification_group privPrefDoc "Q" member = none) ∧
    find_notification_group rosterOnlyDoc "Q" (fun _ _ => false) = none := by
  refine ⟨fun d q member => rfl, by decide, fun member => rfl, by decide⟩

/-- C4 counterexample: with stored preference `""` (reachable via `/noti`
in a group whose id stringifies to `""`) and a membership predicate that
holds for `""`, the claimed case analysis (`resolveChannelSpec`) returns
the preferred group `""`, but the source skips the falsy preference and
returns the private channel. -/
theorem routing_order_cex :
    find_notification_group emptyPrefDoc "Q" (fun _ _ => true) = none ∧
    resolveChannelSpec emptyPrefDoc "Q" (fun _ _ => true) = some "" ∧
    find_notification_group emptyPrefDoc "Q" (fun _ _ => true) ≠
      resolveChannelSpec emptyPrefDoc "Q" (fun _ _ => true) := by
  refine ⟨rfl, rfl, by decide⟩

/-- C5 (amended): each `DataManager` method is a single atomic
read-modify-write under the store's lock, but the bind-request flow
(`_handle_bind`) spans two lock acquisitions — one for the cooldown check
and one for the pending-entry creation — and `verify_binding` likewise
releases the lock before calling `set_binding`.  Hence a TOCTOU window
exists: whenever one request would pass the cooldown check, two racing
requests for the same identity interleaved between the acquisitions BOTH
pass it, an outcome no serial execution produces (serially the second is
refused). -/
theorem bind_flow_two_lock_toctou (d : Doc) (q u1 u2 : String) (now : ℤ)
    (r1 r2 : ℕ) (h : (check_bind_cooldown d q now).1 = true) :
    (handle_bind_racing d q u1 u2 now r1 r2).2 = (true, true) ∧
    (handle_bind_twice d q u1 u2 now r1 r2).2 = (true, false) := by
  constructor
  · simp [handle_bind_racing, h]
  · have hlt : now - now < BIND_COOLDOWN := by
      rw [BIND_COOLDOWN]; omega
    have hs1 : handle_bind d q u1 now r1 =
        ((create_pending_binding d q u1 now r1).2, true) := by
      unfold handle_bind; rw [h]; simp
    have hc2 : (check_bind_cooldown
        (create_pending_binding d q u1 now r1).2 q now).1 = false := by
      simp only [check_bind_cooldown]
      rw [create_pending_lookup]
      simp [hlt, BIND_COOLDOWN]
    have hs2 : handle_bind (create_pending_binding d q u1 now r1).2 q u2 now r2
        = ((create_pending_binding d q u1 now r1).2, false) := by
      unfold handle_bind; rw [hc2]; simp
    simp only [handle_bind_twice, hs1]
    simp [hs2]

/-- C5 counterexample: from the empty document at time 0, the interleaved
schedule lets both bind requests for `"Q"` pass the cooldown check —
`(true, true)` — while both serial orders produce `(true, false)`; the
interleaved outcome therefore matches no serialization, so the flow is not
one atomic read-modify-write. -/
theorem bind_flow_race_cex :
    (handle_bind_racing emptyDoc "Q" "alice" "bob" 0 111111 222222).2
      = (true, true) ∧
    (handle_bind_twice emptyDoc "Q" "alice" "bob" 0 111111 222222).2
      = (true, false) ∧
    (handle_bind_twice emptyDoc "Q" "bob" "alice" 0 222222 111111).2
      = (true, false) ∧
    (handle_bind_racing emptyDoc "Q" "alice" "bob" 0 111111 222222).2 ≠
      (handle_bind_twice emptyDoc "Q" "alice" "bob" 0 111111 222222).2 ∧
    (handle_bind_racing emptyDoc "Q" "alice" "bob" 0 111111 222222).2 ≠
      (handle_bind_twice emptyDoc "Q" "bob" "alice" 0 222222 111111).2 := by
  refine ⟨by decide, by decide, by decide, by decide, by decide⟩

/-- Witness for `bind_flow_two_lock_toctou` at the empty document. -/
theorem bind_flow_two_lock_toctou_witness :
    (handle_bind_racing emptyDoc "Q1" "alice" "bob" 5 111111 222222).2
      = (true, true) ∧
    (handle_bind_twice emptyDoc "Q1" "alice" "bob" 5 111111 222222).2
      = (true, false) :=
  bind_flow_two_lock_toctou emptyDoc "Q1" "alice" "bob" 5 111111 222222
    (by decide)

/-- C6 (amended): every persistence step is a full-document rewrite
performed by opening the data path itself in truncating write mode and
writing the serialized document in place; no temporary path and no rename
occur, so a crash between the truncating open and the completed write
leaves an empty file visible to the next reader. -/
theorem save_in_place (p c : String) (fs : FileSys) :
    save_ops p c = [FsOp.openTrunc p, FsOp.writeAll p c] ∧
    (∀ op ∈ save_ops p c, ∀ s t, op ≠ FsOp.rename s t) ∧
    runFsOps fs ((save_ops p c).take 1) p = some "" ∧
    runFsOps fs (save_ops p c) p = some c := by
  refine ⟨rfl, ?_, ?_, ?_⟩
  · intro op hop s t
    rcases (by simpa [save_ops] using hop : op = FsOp.openTrunc p ∨
        op = FsOp.writeAll p c) with rfl | rfl <;> simp
  · simp [save_ops, runFsOps, applyFsOp]
  · simp [save_ops, runFsOps, applyFsOp]

/-- C6 counterexample: `_save` never renames anything into place, so the
claimed temporary-path-plus-atomic-rename discipline fails at any concrete
save. -/
theorem save_no_temp_rename_cex :
    ¬ tempRenameDiscipline "data.json" (save_ops "data.json" "x") := by
  rintro ⟨tmp, -, hmem, -⟩
  simp [save_ops] at hmem

end CelesteBot

namespace CelesteBot

theorem toDigitsCore_length_exact (b : ℕ) (hb : 1 < b) :
    ∀ (f e n : ℕ) (ds : List Char), b ^ e ≤ n → n < b ^ (e + 1) → e < f →
      (Nat.toDigitsCore b f n ds).length = e + 1 + ds.length := by
  intro f
  induction f with
  | zero => intro e n ds _ _ he; omega
  | succ f ih =>
      intro e n ds hle hlt hef
      cases e with
      | zero =>
          have hn : n < b := by simpa using hlt
          have hdiv : n / b = 0 := Nat.div_eq_of_lt hn
          simp [Nat.toDigitsCore, hdiv]
          omega
      | succ e =>
          have hb0 : 0 < b := Nat.lt_of_lt_of_le Nat.zero_lt_one hb.le
          have hdivle : b ^ e ≤ n / b := by
            rw [Nat.le_div_iff_mul_le hb0]
            calc b ^ e * b = b ^ (e + 1) := (pow_succ b e).symm
            _ ≤ n := hle
          have hdivlt : n / b < b ^ (e + 1) := by
            rw [Nat.div_lt_iff_lt_mul hb0]
            calc n < b ^ (e + 1 + 1) := hlt
            _ = b ^ (e + 1) * b := by rw [pow_succ]
          have hpow : 0 < b ^ e := pow_pos hb0 e
          have hne : n / b ≠ 0 := by omega
          simp only [Nat.toDigitsCore]
          rw [if_neg hne]
          rw [ih e (n / b) (Nat.digitChar (n % b) :: ds) hdivle hdivlt
            (by omega)]
          simp only [List.length_cons]
          omega

/-- Any number between 100000 and 999999 prints as a six-character decimal
string. -/
theorem toString_length_six {r : ℕ} (h1 : 100000 ≤ r) (h2 : r ≤ 999999) :
    (toString r).length = 6 := by
  have h5 : (10 : ℕ) ^ 5 ≤ r := by norm_num; omega
  have h6 : r < (10 : ℕ) ^ (5 + 1) := by norm_num; omega
  have h := toDigitsCore_length_exact 10 (by norm_num) (r + 1) 5 r []
    h5 h6 (by omega)
  have hrepr : (toString r).length = (Nat.toDigitsCore 10 (r + 1) r []).length
    := rfl
  rw [hrepr, h]
  rfl

end CelesteBot

namespace CelesteBot

/-- C7: a successful link request with drawn random value `r` (within the
`randint(100000, 999999)` bounds) returns the code `str(r)` — a 6-digit
numeric string — and stores the pending entry
`{username, code, expire_time = now + VERIFICATION_TIMEOUT (= 300),
request_time = now}` for this QQ number, overwriting any prior pending
entry and leaving every other key and every other document field
untouched. -/
theorem create_pending_spec (d : Doc) (q u : String) (now : ℤ) (r : ℕ)
    (h1 : 100000 ≤ r) (h2 : r ≤ 999999) :
    (create_pending_binding d q u now r).1 = toString r ∧
    ((create_pending_binding d q u now r).1).length = 6 ∧
    VERIFICATION_TIMEOUT = 300 ∧
    dget (create_pending_binding d q u now r).2.pending_bindings q =
      some ⟨u, toString r, now + VERIFICATION_TIMEOUT, now⟩ ∧
    (∀ q', q' ≠ q →
      dget (create_pending_binding d q u now r).2.pending_bindings q' =
        dget d.pending_bindings q') ∧
    (create_pending_binding d q u now r).2.bindings = d.bindings ∧
    (create_pending_binding d q u now r).2.user_qq_map = d.user_qq_map ∧
    (create_pending_binding d q u now r).2.notifications = d.notifications ∧
    (create_pending_binding d q u now r).2.groups = d.groups :=
  ⟨rfl, toString_length_six h1 h2, rfl, create_pending_lookup d q u now r,
   fun q' hq' => by simp [create_pending_binding, dget, dset, hq'],
   rfl, rfl, rfl, rfl⟩

/-- Witness for `create_pending_spec` at `r = 123456`, overwriting the
prior pending entry of `requestedDoc`. -/
theorem create_pending_spec_witness :
    (create_pending_binding requestedDoc "Q" "bob" 7 654321).1.length = 6 ∧
    dget (create_pending_binding requestedDoc "Q" "bob" 7 654321).2.pending_bindings
      "Q" = some ⟨"bob", "654321", 307, 7⟩ :=
  ⟨(create_pending_spec requestedDoc "Q" "bob" 7 654321 (by decide)
      (by decide)).2.1,
   ((create_pending_spec requestedDoc "Q" "bob" 7 654321 (by decide)
      (by decide)).2.2.2.1).trans (by decide)⟩

/-- C8 (amended): a pending entry — expired or not — blocks a later link
request exactly when `now` is strictly within `BIND_COOLDOWN` seconds of
its `request_time`; it does NOT block indefinitely.  In particular, for any
entry whose time-to-live is at least the cooldown (the code always uses
`VERIFICATION_TIMEOUT = 300 ≥ 60 = BIND_COOLDOWN`), once the entry has
passed its `expire_time` a request is always allowed again, even though the
stale entry is still present and only a `verify_binding` call would remove
it. -/
theorem stale_entry_cooldown_scope (d : Doc) (q : String) (p : PendingEntry)
    (now : ℤ) (hp : dget d.pending_bindings q = some p) :
    ((check_bind_cooldown d q now).1 = false ↔
      now - p.request_time < BIND_COOLDOWN) ∧
    (p.expire_time < now →
      p.request_time + VERIFICATION_TIMEOUT ≤ p.expire_time →
      check_bind_cooldown d q now = (true, 0)) := by
  constructor
  · by_cases hlt : now - p.request_time < BIND_COOLDOWN <;>
      simp [check_bind_cooldown, hp, hlt]
  · intro hexp httl
    have hge : ¬ now - p.request_time < BIND_COOLDOWN := by
      rw [BIND_COOLDOWN]
      rw [VERIFICATION_TIMEOUT] at httl
      omega
    simp [check_bind_cooldown, hp, hge]

/-- C8 fails as stated: `requestedDoc`'s entry (requested at 0, expired at
300) is still present at time 400 and no verify call has removed it, yet
`check_bind_cooldown` allows the request — the stale entry does not block
"indefinitely". -/
theorem stale_entry_blocks_cex :
    dget requestedDoc.pending_bindings "Q"
      = some ⟨"alice", "123456", 300, 0⟩ ∧
    ((300 : ℤ) < 400) ∧
    check_bind_cooldown requestedDoc "Q" 400 = (true, 0) := by
  refine ⟨by decide, by decide, by decide⟩

/-- Witness for `stale_entry_cooldown_scope` at `requestedDoc`, time 400. -/
theorem stale_entry_cooldown_scope_witness :
    check_bind_cooldown requestedDoc "Q" 400 = (true, 0) :=
  (stale_entry_cooldown_scope requestedDoc "Q" ⟨"alice", "123456", 300, 0⟩
    400 (by decide)).2 (by decide) (by decide)

/-- C9: a missing or malformed persisted file loads as the empty document
rather than raising: every lookup is absent, the group list is empty, and
the mutating operations proceed exactly as from the empty document. -/
theorem load_missing_or_malformed (q u c g : String) (now : ℤ) (r : ℕ) :
    load FileState.missing = emptyDoc ∧
    load FileState.malformed = emptyDoc ∧
    get_binding (load FileState.missing) q = none ∧
    get_qq_by_username (load FileState.missing) u = none ∧
    get_notification_group (load FileState.missing) q = none ∧
    dget (load FileState.missing).pending_bindings q = none ∧
    get_groups (load FileState.missing) = [] ∧
    get_binding (load FileState.malformed) q = none ∧
    get_qq_by_username (load FileState.malformed) u = none ∧
    get_notification_group (load FileState.malformed) q = none ∧
    dget (load FileState.malformed).pending_bindings q = none ∧
    get_groups (load FileState.malformed) = [] ∧
    set_binding (load FileState.malformed) q u = set_binding emptyDoc q u ∧
    check_bind_cooldown (load FileState.malformed) q now = (true, 0) ∧
    create_pending_binding (load FileState.malformed) q u now r =
      create_pending_binding emptyDoc q u now r ∧
    verify_binding (load FileState.malformed) q c now =
      (load FileState.malformed, (false, noPendingMsg)) ∧
    add_group (load FileState.malformed) g = add_group emptyDoc g :=
  ⟨rfl, rfl, rfl, rfl, rfl, rfl, rfl, rfl, rfl, rfl, rfl, rfl, rfl, rfl,
   rfl, rfl, rfl⟩

/-- C10: the stale-pair cleanup in `set_binding` is guarded by Python
truthiness, not presence.  When both prior values are non-empty the stale
halves are removed; but when QQ number `x` was previously bound to the
empty-string account, rebinding `x` leaves the stale reverse entry
`"" ↦ x` in place. -/
theorem set_binding_truthiness (d : Doc) (x a b y : String) :
    (d.bindings x = some a → a ≠ "" → a ≠ b →
      (set_binding d x b).user_qq_map a = none) ∧
    (d.user_qq_map b = some y → y ≠ "" → y ≠ x →
      (∀ a', d.bindings x = some a' → a' ≠ b) →
      (set_binding d x b).bindings y = none) ∧
    (d.bindings x = some "" → d.user_qq_map "" = some x →
      (set_binding d x b).user_qq_map "" = some x) := by
  refine ⟨?_, ?_, ?_⟩
  · intro hbind hne hab
    rw [set_binding_map, dset_ne _ _ _ hab, dget_def, hbind,
      popTruthy_self _ hne]
  · intro hmap hyne hynex hnb
    rw [set_binding_bindings, dset_ne _ _ _ hynex, dget_def]
    have hm1 : popTruthy d.user_qq_map (dget d.bindings x) b = some y := by
      rcases popTruthy_eq_or d.user_qq_map (dget d.bindings x) b with
        hcase | ⟨hBx, -, -⟩
      · rw [hcase]; exact hmap
      · exact absurd rfl (hnb b (by rwa [dget_def] at hBx))
    rw [hm1, popTruthy_self _ hyne]
  · intro hbind hmap
    rw [set_binding_map]
    by_cases hb : "" = b
    · rw [← hb, dset_self]
    · rw [dset_ne _ _ _ hb, dget_def, hbind]
      simpa [popTruthy] using hmap

end CelesteBot

namespace CelesteBot

/-- Witness for `set_binding_truthiness`: all three parts at concrete
documents built by `set_binding` sequences. -/
theorem set_binding_truthiness_witness :
    (set_binding (applyBinds [("X", "A")]) "X" "B").user_qq_map "A"
      = none ∧
    (set_binding (applyBinds [("X", "A"), ("Y", "B")]) "X" "B").bindings "Y"
      = none ∧
    (set_binding (applyBinds [("X", "")]) "X" "B").user_qq_map ""
      = some "X" :=
  ⟨(set_binding_truthiness (applyBinds [("X", "A")]) "X" "A" "B" "Y").1
      (by decide) (by decide) (by decide),
   (set_binding_truthiness (applyBinds [("X", "A"), ("Y", "B")])
      "X" "A" "B" "Y").2.1 (by decide) (by decide) (by decide)
      (by
        intro a' h
        have h2 : some "A" = some a' := h
        cases h2
        decide),
   (set_binding_truthiness (applyBinds [("X", "")]) "X" "A" "B" "Y").2.2
      (by decide) (by decide)⟩

end CelesteBot

namespace CelesteBot

/-- Witness for `save_in_place` at a concrete path and content. -/
theorem save_in_place_witness :
    save_ops "data.json" "x" =
      [FsOp.openTrunc "data.json", FsOp.writeAll "data.json" "x"] ∧
    FsOp.openTrunc "data.json" ≠ FsOp.rename "tmp" "data.json" ∧
    runFsOps (fun _ => none) ((save_ops "data.json" "x").take 1) "data.json"
      = some "" ∧
    runFsOps (fun _ => none) (save_ops "data.json" "x") "data.json"
      = some "x" :=
  ⟨(save_in_place "data.json" "x" (fun _ => none)).1,
   (save_in_place "data.json" "x" (fun _ => none)).2.1
     (FsOp.openTrunc "data.json") (by decide) "tmp" "data.json",
   (save_in_place "data.json" "x" (fun _ => none)).2.2.1,
   (save_in_place "data.json" "x" (fun _ => none)).2.2.2⟩

end CelesteBot
